import Mathlib

/-!
Verification development for the multi-vendor e-commerce backend
(settlement engine, webhook ingestion, order state machine).

Shallow embedding conventions:
* Monetary columns (Python `Decimal` fields) are modelled as exact
  rationals `ℚ`.
* Python's mixed-type arithmetic is carried by `PyNum`: `Decimal * float`
  raises `TypeError`, which is what `Order.calculate_commission` does on
  every persisted order (`total_price` is a `DecimalField`, the commission
  percentage the float literal `2.0`).
* `orders/models.py` renamed the vendor fields of `Order` to `admin` (a
  `CustomUser` foreign key carrying none of the KYC fields) and
  `admin_settlement_amount` (source comment: "renamed from vendor"), but
  `orders/settlement_service.py` still reads `order.vendor` — an attribute
  the model no longer has.  Python therefore raises `AttributeError` at
  settlement_service.py line 47 on every order that passes the two status
  checks, and the embedding models exactly that: the vendor checks, the
  conflict guard, the settlement-row writes and the gateway call below that
  line are unreachable dead code.
* Django rows become structures; a "save" is an update of the corresponding
  entry in an explicit list standing for the table.
* `@transaction.atomic` is modelled by running the body on the state and
  discarding all of the body's writes when it ends in an exception
  (Django rolls the transaction back when an exception propagates out of the
  atomic block); gateway (network) calls would be recorded in a separate log
  that is not rolled back.
* Fallible code returns `Except String α`, the `String` being the exception
  message (`str(e)` of the Python exception).
-/

/-- `users/models.py` `VendorAccount`: a vendor's payout identity.  Only the
fields read by `users/razorpay_service.py` are embedded.  Note that no
`Order` column references this model — `Order.admin` points at
`CustomUser` — so the settlement service can never actually produce one of
these from an order. -/
structure VendorAccount where
  vendor_id : Nat
  userId : Nat
  kyc_verified : Bool
  razorpay_account_id : Option String
  account_status : String
  business_name : String
deriving Repr, DecidableEq

/-- `orders/models.py` `Order`.  The vendor-related columns are `admin`
(a nullable foreign key to `users.CustomUser`, "renamed from vendor") and
`admin_settlement_amount`; there is no `vendor` attribute and no
`vendor_settlement_amount` attribute on this model. -/
structure Order where
  order_id : Nat
  userId : Nat
  total_price : ℚ
  shipping_address : String
  status : String
  settlement_status : String
  admin : Option Nat
  commission_amount : ℚ
  admin_settlement_amount : ℚ
  razorpay_payment_link_id : Option String
  razorpay_payment_id : Option String
  razorpay_transfer_id : Option String
  settled_at : Option Nat
  is_active : Bool
deriving Repr, DecidableEq

/-- `orders/models.py` `PaymentSettlement` (the Settlement audit row); its
beneficiary column is `admin`, a nullable foreign key to `users.CustomUser`
(the service's `vendor=` keyword would not match it).
`razorpay_transfer_response` (opaque JSON stored for audit) is represented
by the transfer id alone. -/
structure PaymentSettlement where
  settlement_id : Nat
  orderId : Nat
  adminId : Option Nat
  order_amount : ℚ
  commission_amount : ℚ
  settlement_amount : ℚ
  razorpay_transfer_id : Option String
  status : String
  failure_reason : Option String
  retry_count : Nat
  completed_at : Option Nat
deriving Repr, DecidableEq

/-- `users/models.py` `AdminNotification`, created by
`users/utils.py` `create_admin_notification`. -/
structure Notification where
  userId : Option Nat
  title : String
  event_type : String
deriving Repr, DecidableEq

/-- A Python numeric value as this code manipulates them: a
`decimal.Decimal` (the type of every Django `DecimalField` attribute), a
`float`, or an `int`.  Rational payloads abstract binary-float rounding,
which no reachable computation here depends on. -/
inductive PyNum where
  | decimal (q : ℚ)
  | float (q : ℚ)
  | int (n : Int)
deriving Repr, DecidableEq

/-- The rational payload of a Python number. -/
def PyNum.toRat : PyNum → ℚ
  | .decimal q => q
  | .float q => q
  | .int n => (n : ℚ)

/-- Python `*` on these values: `Decimal` combines with `int` (and raises
`TypeError` against `float`), `float` combines with `int`. -/
def pyMul : PyNum → PyNum → Except String PyNum
  | .decimal a, .decimal b => .ok (.decimal (a * b))
  | .decimal a, .int n => .ok (.decimal (a * (n : ℚ)))
  | .int n, .decimal b => .ok (.decimal ((n : ℚ) * b))
  | .float a, .float b => .ok (.float (a * b))
  | .float a, .int n => .ok (.float (a * (n : ℚ)))
  | .int n, .float b => .ok (.float ((n : ℚ) * b))
  | .int a, .int b => .ok (.int (a * b))
  | .decimal _, .float _ =>
    .error "unsupported operand type(s) for *: 'decimal.Decimal' and 'float'"
  | .float _, .decimal _ =>
    .error "unsupported operand type(s) for *: 'float' and 'decimal.Decimal'"

/-- Python `/` (true division; `int / int` yields `float`), with the same
`Decimal`/`float` incompatibility as `pyMul`. -/
def pyDiv : PyNum → PyNum → Except String PyNum
  | .decimal a, .decimal b => .ok (.decimal (a / b))
  | .decimal a, .int n => .ok (.decimal (a / (n : ℚ)))
  | .int n, .decimal b => .ok (.decimal ((n : ℚ) / b))
  | .float a, .float b => .ok (.float (a / b))
  | .float a, .int n => .ok (.float (a / (n : ℚ)))
  | .int n, .float b => .ok (.float ((n : ℚ) / b))
  | .int a, .int b => .ok (.float ((a : ℚ) / (b : ℚ)))
  | .decimal _, .float _ =>
    .error "unsupported operand type(s) for /: 'decimal.Decimal' and 'float'"
  | .float _, .decimal _ =>
    .error "unsupported operand type(s) for /: 'float' and 'decimal.Decimal'"

/-- Python `-`, with the same `Decimal`/`float` incompatibility. -/
def pySub : PyNum → PyNum → Except String PyNum
  | .decimal a, .decimal b => .ok (.decimal (a - b))
  | .decimal a, .int n => .ok (.decimal (a - (n : ℚ)))
  | .int n, .decimal b => .ok (.decimal ((n : ℚ) - b))
  | .float a, .float b => .ok (.float (a - b))
  | .float a, .int n => .ok (.float (a - (n : ℚ)))
  | .int n, .float b => .ok (.float ((n : ℚ) - b))
  | .int a, .int b => .ok (.int (a - b))
  | .decimal _, .float _ =>
    .error "unsupported operand type(s) for -: 'decimal.Decimal' and 'float'"
  | .float _, .decimal _ =>
    .error "unsupported operand type(s) for -: 'float' and 'decimal.Decimal'"

/-- `orders/models.py` `Order.calculate_commission`: sets
`commission_percentage = 2.0` (a float literal) and computes
`(self.total_price * commission_percentage) / 100` and
`self.total_price - self.commission_amount`.  `total_price` is a
`DecimalField` attribute, i.e. a `decimal.Decimal`, so the very first
multiplication raises `TypeError` and nothing is computed or persisted. -/
def calculate_commission (o : Order) : Except String Order := do
  let commission_percentage : PyNum := .float 2
  let prod ← pyMul (.decimal o.total_price) commission_percentage
  let c ← pyDiv prod (.int 100)
  let v ← pySub (.decimal o.total_price) c
  return { o with commission_amount := c.toRat
                  admin_settlement_amount := v.toRat }

/-- A Razorpay Route transfer request as assembled by
`users/razorpay_service.py` `create_transfer` (payment reference, linked
account, amount in INR). -/
structure TransferReq where
  paymentId : String
  accountId : String
  amount : ℚ
deriving Repr, DecidableEq

/-- `users/razorpay_service.py` `RazorpayRouteService.create_transfer`:
validates the linked account and the captured-payment reference, then issues
the network call.  `gw` stands for the Razorpay network boundary: it returns
the new transfer id or the gateway exception message.  The returned list
records the gateway calls actually fired.  (The settlement service crashes
before ever reaching this call — see `process_settlement_body` — so the
embedding keeps it only as the faithful picture of the gateway adapter.) -/
def create_transfer (gw : TransferReq → Except String String)
    (order : Order) (vendor : VendorAccount) (amount : ℚ) :
    List TransferReq × Except String String :=
  match vendor.razorpay_account_id with
  | none => ([], .error "Vendor does not have a linked Razorpay account")
  | some acct =>
    match order.razorpay_payment_id with
    | none => ([], .error "Order payment not completed - no payment ID")
    | some pid =>
      let req : TransferReq := ⟨pid, acct, amount⟩
      ([req], gw req)

/-- The ledger state the settlement service operates on: the order being
settled, the `payment_settlements` table, the notification table and the
auto-increment counter for settlement primary keys. -/
structure SState where
  order : Order
  settlements : List PaymentSettlement
  notifications : List Notification
  nextSettlementId : Nat
deriving Repr, DecidableEq

/-- `settlement.save()`: update-in-place of the row with the same primary
key. -/
def saveSettlement (s : PaymentSettlement) (l : List PaymentSettlement) :
    List PaymentSettlement :=
  l.map (fun t => if t.settlement_id == s.settlement_id then s else t)

/-- The exception leaving the validation prologue of
`SettlementService.process_settlement` (settlement_service.py lines 41-47)
as it actually executes against `orders/models.py`: the two order-level
checks (lines 41-45) read real columns and raise their `ValueError`s, and
the next statement, `if not order.vendor:` (line 47), reads an attribute
the `Order` model no longer has — it was renamed to `admin`, whose
`CustomUser` target carries no KYC fields — so every order that passes the
first two checks raises `AttributeError`.  The vendor checks at lines
50-57, the commission step, the conflict guard at lines 63-66 and the whole
transfer flow below are unreachable. -/
def settlementAbortError (o : Order) : String :=
  if o.status ≠ "Delivered" then "Can only settle delivered orders"
  else if o.settlement_status = "completed" then "Order already settled"
  else "'Order' object has no attribute 'vendor'"

deriving instance DecidableEq for Except

/-- Result of one settlement-service call: the ledger state after the call,
the gateway transfer calls that were fired, and the returned settlement or
the raised exception. -/
structure SOutcome where
  state : SState
  calls : List TransferReq
  result : Except String PaymentSettlement
deriving Repr, DecidableEq

/-- The body of `SettlementService.process_settlement` without the
`@transaction.atomic` wrapper.  Every execution path raises before touching
the database or the gateway: either one of the two status `ValueError`s, or
the `AttributeError` from `order.vendor` (see `settlementAbortError`), so
the body returns the state unchanged, an empty call log and the exception.
The gateway boundary `gw` and the clock `now` are the parameters the dead
remainder of the method would consume. -/
def process_settlement_body (_gw : TransferReq → Except String String)
    (_now : Nat) (st : SState) :
    SState × List TransferReq × Except String PaymentSettlement :=
  (st, [], .error (settlementAbortError st.order))

/-- `SettlementService.process_settlement`, including its
`@transaction.atomic` decorator: when the body ends in an exception, every
database write of this call is rolled back (the returned state is the input
state); gateway calls, being network I/O, would not be undone. -/
def process_settlement (gw : TransferReq → Except String String)
    (now : Nat) (st : SState) : SOutcome :=
  match process_settlement_body gw now st with
  | (st', calls, .ok s) => ⟨st', calls, .ok s⟩
  | (_, calls, .error e) => ⟨st, calls, .error e⟩

/-- `SettlementService.retry_failed_settlement`: guard checks, then the
retry bookkeeping (which is *not* inside any transaction, hence persists
even if the delegated call fails), then delegation to
`process_settlement(settlement.order)`. -/
def retry_failed_settlement (gw : TransferReq → Except String String)
    (now : Nat) (s : PaymentSettlement) (st : SState) : SOutcome :=
  if s.status ≠ "failed" then
    ⟨st, [], .error "Can only retry failed settlements"⟩
  else if 3 ≤ s.retry_count then
    ⟨st, [], .error "Maximum retry attempts (3) reached. Manual intervention required."⟩
  else
    let s' := { s with
      retry_count := s.retry_count + 1
      status := "processing"
      failure_reason := none }
    let st' := { st with settlements := saveSettlement s' st.settlements }
    process_settlement gw now st'

/-- `orders/models.py` `CartItem` (cart rows that `payment.captured` soft
clears); `cartUserId` is the `cart__user` join key. -/
structure CartItem where
  cartItemId : Nat
  cartUserId : Nat
  productId : Nat
  quantity : Nat
  is_active : Bool
deriving Repr, DecidableEq

/-- The tables touched by the Razorpay webhook handler. -/
structure WebDB where
  orders : List Order
  cartItems : List CartItem
deriving Repr, DecidableEq

/-- The payment entity of a Razorpay webhook payload,
`payload["payload"]["payment"]["entity"]`; every key may be absent
(`dict.get`).  `amount` (paise) is only used in a log line by the handler. -/
structure PaymentEntity where
  id : Option String
  order_id : Option String
  status : Option String
  amount : Option Int
deriving Repr, DecidableEq

/-- A decoded webhook JSON body: `{event: ..., payload: {payment: {entity:
...}}}` with every key optional. -/
structure WebhookPayload where
  event : Option String
  payment : PaymentEntity
deriving Repr, DecidableEq

/-- The handler's HTTP responses: `200 {"status": "success", "event": e}` or
an error JSON with its status code. -/
inductive WebhookResp where
  | success (event : Option String)
  | errorResp (code : Nat) (msg : String)
deriving Repr, DecidableEq

/-- The column names of `orders/models.py` `Order`, used by the embedding of
Django's ORM field resolution: filtering on any other keyword raises
`FieldError`. -/
def orderFieldNames : List String :=
  ["order_id", "user", "total_price", "shipping_address", "status",
   "tracking_id", "created_at", "razorpay_payment_link_id",
   "razorpay_payment_id", "is_refunded", "updated_at", "is_active", "admin",
   "commission_amount", "admin_settlement_amount", "settlement_status",
   "razorpay_transfer_id", "settled_at", "delivery_partner",
   "current_location_lat", "current_location_lng", "estimated_delivery_time"]

/-- The value an order holds under a string-typed column name used by the
webhook's lookups. -/
def orderStringField (o : Order) (f : String) : Option String :=
  if f = "razorpay_payment_link_id" then o.razorpay_payment_link_id
  else if f = "razorpay_payment_id" then o.razorpay_payment_id
  else if f = "razorpay_transfer_id" then o.razorpay_transfer_id
  else none

/-- `Order.objects.filter(<f>=v, is_active=True)`: Django resolves the
keyword `f` against the model's columns eagerly and raises `FieldError` when
there is no such column — `orders/models.py` `Order` has no
`razorpay_order_id` column, so the webhook's lookups on that keyword
raise. -/
def ordersFilter (f : String) (v : Option String) (orders : List Order) :
    Except String (List Order) :=
  if f ∈ orderFieldNames then
    .ok (orders.filter (fun o => o.is_active && orderStringField o f == v))
  else
    .error ("Cannot resolve keyword '" ++ f ++ "' into field")

/-- The event dispatch of `orders/views.py` `razorpay_webhook` (lines
534-619), i.e. everything after the signature check: JSON decoding, the
per-event branches, the final success acknowledgment, and the generic
`except Exception` handler that turns an escaped exception (here: the
`FieldError` from the order lookups) into a 500 response.  `parseJson`
abstracts `json.loads` on the raw body: `none` models a
`json.JSONDecodeError`. -/
def razorpay_webhook_dispatch (parseJson : String → Option WebhookPayload)
    (webhook_body : String) (db : WebDB) : WebDB × WebhookResp :=
  match parseJson webhook_body with
  | none => (db, .errorResp 400 "Invalid JSON")
  | some payload =>
    let event := payload.event
    let entity := payload.payment
    let payment_id := entity.id
    let order_id := entity.order_id
    if event = some "payment.authorized" then
      (db, .success event)
    else if event = some "payment.captured" then
      match ordersFilter "razorpay_order_id" order_id db.orders with
      | .error e => (db, .errorResp 500 e)
      | .ok byOrderId =>
        match
          (match byOrderId.head? with
           | some o => Except.ok (some o)
           | none =>
             -- Try finding by payment_id
             (ordersFilter "razorpay_payment_id" payment_id db.orders).map
               List.head?) with
        | .error e => (db, .errorResp 500 e)
        | .ok none => (db, .success event)   -- order not found: log, still 200
        | .ok (some o) =>
          let o' := { o with status := "Processing"
                             razorpay_payment_id := payment_id }
          let orders' :=
            db.orders.map (fun x => if x.order_id == o.order_id then o' else x)
          -- Soft delete cart items of the buyer
          let items' := db.cartItems.map (fun ci =>
            if ci.cartUserId == o.userId && ci.is_active then
              { ci with is_active := false }
            else ci)
          ({ orders := orders', cartItems := items' }, .success event)
    else if event = some "payment.failed" then
      match ordersFilter "razorpay_order_id" order_id db.orders with
      | .error e => (db, .errorResp 500 e)
      | .ok byOrderId =>
        match byOrderId.head? with
        | some o =>
          let o' := { o with status := "Failed" }
          ({ db with orders :=
               db.orders.map (fun x => if x.order_id == o.order_id then o' else x) },
           .success event)
        | none => (db, .success event)
    else
      -- order.paid / payment.dispute.created / refund.created / anything
      -- else: logged only, acknowledged with success
      (db, .success event)

/-- `orders/views.py` `razorpay_webhook`: signature verification followed by
`razorpay_webhook_dispatch`.  `hmacSha256 secret body` abstracts
`hmac.new(secret, body, sha256).hexdigest()`; `webhook_signature` is the
`X-Razorpay-Signature` header (`none` when absent); an unset
`settings.WEBHOOK_SECRET` is the empty string, which Python's
`if webhook_secret:` treats as falsy, skipping verification entirely. -/
def razorpay_webhook (hmacSha256 : String → String → String)
    (parseJson : String → Option WebhookPayload)
    (webhook_secret : String) (webhook_signature : Option String)
    (webhook_body : String) (db : WebDB) : WebDB × WebhookResp :=
  if webhook_secret ≠ "" then
    if webhook_signature ≠ some (hmacSha256 webhook_secret webhook_body) then
      (db, .errorResp 400 "Invalid signature")
    else
      razorpay_webhook_dispatch parseJson webhook_body db
  else
    razorpay_webhook_dispatch parseJson webhook_body db

/-- `products/models.py` `Product`: only the stock counter matters to the
order state machine. -/
structure Product where
  product_id : Nat
  stock : Int
deriving Repr, DecidableEq

/-- `orders/models.py` `OrderDetail`: one line item of an order. -/
structure OrderDetail where
  order_detail_id : Nat
  orderId : Nat
  productId : Nat
  quantity : Nat
  is_active : Bool
deriving Repr, DecidableEq

/-- The response of `OrderViewSet.update`: an error JSON with status code,
or a 200 body (the cancellation message, or the serialized order). -/
inductive UpdateResp where
  | err (code : Nat) (msg : String)
  | okMsg (msg : String)
  | okOrder
deriving Repr, DecidableEq

/-- Outcome of `OrderViewSet.update`: the saved order, the product table,
the notifications created, whether the manual-refund request email was sent,
and the HTTP response. -/
structure UpdateOutcome where
  order : Order
  products : List Product
  notifications : List Notification
  refundEmailSent : Bool
  resp : UpdateResp
deriving Repr, DecidableEq

/-- `item.product.stock = F("stock") - item.quantity; item.product.save()`
for every line item of the order (the Shipped branch). -/
def decrementStock (details : List OrderDetail) (products : List Product) :
    List Product :=
  details.foldl
    (fun ps d => ps.map (fun p =>
      if p.product_id == d.productId then { p with stock := p.stock - d.quantity }
      else p))
    products

/-- `orders/views.py` `OrderViewSet.update` (lines 395-457): order status
updates including cancellation.  `new_status` is `request.data.get("status")`;
`details` are this order's `order_details` rows; `isAdminOrStaff` stands for
the `IsAdminOrStaff` permission check that guards the Shipped/Delivered
branches (`check_permissions` raising is a 403 response). -/
def orderViewSet_update (new_status : Option String) (order : Order)
    (details : List OrderDetail) (products : List Product)
    (isAdminOrStaff : Bool) : UpdateOutcome :=
  let previous_status := order.status
  if ¬ order.is_active then
    ⟨order, products, [], false, .err 400 "Cannot update an inactive order"⟩
  else if new_status = some "Cancelled" then
    if previous_status = "Shipped" ∨ previous_status = "Delivered" then
      ⟨order, products, [], false,
       .err 400 "Order cannot be cancelled at this stage"⟩
    else
      let order := { order with status := "Cancelled", is_active := false }
      let notifs : List Notification :=
        [⟨some order.userId, "order_cancelation", "order_cancelled"⟩]
      -- Send refund email only if the previous status was "Processing"
      let refund := previous_status = "Processing"
      ⟨order, products, notifs, refund, .okMsg "Order cancelled successfully."⟩
  else if new_status = some "Shipped" then
    if ¬ isAdminOrStaff then
      ⟨order, products, [], false,
       .err 403 "You do not have permission to perform this action."⟩
    else
      let order := { order with status := "Shipped" }
      -- Reduce stock once order is shipped
      let products := decrementStock details products
      ⟨order, products,
       [⟨some order.userId, "order_status", "order_status_update"⟩],
       false, .okOrder⟩
  else if new_status = some "Delivered" then
    if ¬ isAdminOrStaff then
      ⟨order, products, [], false,
       .err 403 "You do not have permission to perform this action."⟩
    else
      let order := { order with status := "Delivered" }
      ⟨order, products,
       [⟨some order.userId, "order_status", "order_status_update"⟩],
       false, .okOrder⟩
  else
    ⟨order, products, [], false, .err 400 "Invalid status update"⟩


/-! ## Concrete exemplars used by the claim theorems and witnesses -/

/-- A delivered, captured-payment order of ₹100 (admin user 9) whose
commission fields are still zero. -/
def orderDelivered : Order :=
  ⟨1, 3, 100, "addr", "Delivered", "pending", some 9, 0, 0,
   none, some "pay_1", none, none, true⟩

/-- The delivered order with commission columns already holding a 2/98
split (as a DB administrator or an earlier code version could have left
them). -/
def orderPrecomputed : Order :=
  { orderDelivered with commission_amount := 2, admin_settlement_amount := 98 }

/-- A gateway stub that rejects every transfer. -/
def gwDown : TransferReq → Except String String := fun _ => .error "gateway down"

/-- A gateway stub that accepts every transfer. -/
def gwUp : TransferReq → Except String String := fun _ => .ok "trf_1"

/-- An order totalling ₹999.99, the total of the claimed commission
scenario. -/
def order99999 : Order :=
  ⟨2, 3, 999.99, "addr", "Delivered", "pending", some 9, 0, 0,
   none, some "pay_2", none, none, true⟩

/-- A settlement row for `orderPrecomputed` already in "processing". -/
def settlementProcessingRow : PaymentSettlement :=
  ⟨1, 1, some 9, 100, 2, 98, none, "processing", none, 0, none⟩

/-- Ledger state with a concurrent settlement already processing. -/
def stConflict : SState := ⟨orderPrecomputed, [settlementProcessingRow], [], 2⟩

/-- Ledger state just before a first settlement attempt (no settlement row
yet). -/
def stBeforeFailure : SState := ⟨orderPrecomputed, [], [], 1⟩

/-- A settlement row marked "failed" with retry_count 0 (as a DB
administrator or an earlier code version could have left it). -/
def settlementFailedRow : PaymentSettlement :=
  ⟨1, 1, some 9, 100, 2, 98, none, "failed", some "gateway down", 0, none⟩

/-- Ledger state holding the failed settlement row, ready for a retry. -/
def stRetry : SState := ⟨orderPrecomputed, [settlementFailedRow], [], 2⟩

/-- The failed settlement row after exhausting its three retries. -/
def settlementMaxRetries : PaymentSettlement :=
  { settlementFailedRow with retry_count := 3 }

/-- Ledger state holding the retry-exhausted settlement row. -/
def stMaxRetries : SState := ⟨orderPrecomputed, [settlementMaxRetries], [], 2⟩

/-- A paid order currently in "Processing". -/
def orderProcessing : Order :=
  ⟨4, 6, 50, "addr", "Processing", "pending", some 9, 1, 49,
   none, some "pay_4", none, none, true⟩

/-- The single line item of `orderProcessing`: 2 units of product 5. -/
def detailProcessing : OrderDetail := ⟨10, 4, 5, 2, true⟩

/-- Product 5 with 5 units in stock. -/
def productFive : Product := ⟨5, 5⟩

/-- A concrete HMAC stand-in used to build signature-valid requests. -/
def hmacConcat : String → String → String := fun s b => s ++ "|" ++ b

/-- The `payment.captured` payload of the repository's own test script
`test_razorpay_webhook.py` (payment id `pay_test_123456`, gateway order id
`order_test_789`, amount 50000 paise). -/
def capturedPayload : WebhookPayload :=
  ⟨some "payment.captured",
   ⟨some "pay_test_123456", some "order_test_789", some "captured", some 50000⟩⟩

/-- A JSON decoder pinned to the test payload. -/
def parseCaptured : String → Option WebhookPayload := fun _ => some capturedPayload

/-- An active, still-"Pending" order whose captured payment id matches the
test payload, awaiting the `payment.captured` transition. -/
def orderAwaitingCapture : Order :=
  ⟨3, 6, 10, "addr", "Pending", "pending", some 9, 0, 0,
   some "plink_3", some "pay_test_123456", none, none, true⟩

/-- The buyer's single active cart item at the time of capture. -/
def cartItemActive : CartItem := ⟨1, 6, 5, 1, true⟩

/-- The webhook database holding that order and cart item. -/
def dbAwaitingCapture : WebDB := ⟨[orderAwaitingCapture], [cartItemActive]⟩

/-! ## Helper lemmas -/

/-- Membership after a row save: either the saved row or an untouched one. -/
lemma mem_saveSettlement {t s : PaymentSettlement} {l : List PaymentSettlement}
    (h : t ∈ saveSettlement s l) : t = s ∨ t ∈ l := by
  simp only [saveSettlement, List.mem_map] at h
  obtain ⟨x, hx, hxt⟩ := h
  by_cases hc : (x.settlement_id == s.settlement_id) = true
  · rw [if_pos hc] at hxt
    exact Or.inl hxt.symm
  · rw [if_neg hc] at hxt
    exact Or.inr (hxt ▸ hx)

/-- `process_settlement` always raises before any write, so (after the
atomic rollback) it returns the ledger it was given. -/
lemma process_settlement_state_eq (gw : TransferReq → Except String String)
    (now : Nat) (st : SState) : (process_settlement gw now st).state = st := rfl

/-! ## Claim theorems -/

/-- Claim C1 (evaluation at the failing input): on the ledger `stConflict`,
whose order is delivered and whose settlement row is already "processing",
`process_settlement` does abort without creating or modifying any
Settlement and without any gateway call — but the exception is the
`AttributeError` from `order.vendor` at settlement_service.py line 47, not
the conflict error of the step-3 guard, which sits below that line and is
unreachable: the code can never raise
"Settlement already exists with status: processing". -/
theorem settlement_service_crashes_before_conflict_guard :
    process_settlement gwUp 0 stConflict
      = ⟨stConflict, [], .error "'Order' object has no attribute 'vendor'"⟩ ∧
    (process_settlement gwUp 0 stConflict).result
      ≠ .error "Settlement already exists with status: processing" :=
  ⟨by decide, by decide⟩

/-- Claim C2 (evaluation at the failing input): for the delivered order
`orderPrecomputed` with a gateway stub standing ready to reject, the
claimed failure path never runs: `process_settlement` raises
`AttributeError` at `order.vendor` (line 47) before any Settlement row, any
`try` block or any `create_transfer` call exists, so afterwards there is no
settlement row at all (hence none marked "failed"), the order's
settlement_status is still "pending", no failure notification was emitted,
and the gateway was never called.  (Had the failure path been reachable,
its writes would in any case be discarded by the `@transaction.atomic`
rollback on the re-raise.) -/
theorem settlement_failure_path_unreachable :
    process_settlement gwDown 5 stBeforeFailure
      = ⟨stBeforeFailure, [], .error "'Order' object has no attribute 'vendor'"⟩ ∧
    (process_settlement gwDown 5 stBeforeFailure).calls = [] ∧
    (process_settlement gwDown 5 stBeforeFailure).state.settlements = [] ∧
    (process_settlement gwDown 5 stBeforeFailure).state.order.settlement_status
      = "pending" ∧
    (process_settlement gwDown 5 stBeforeFailure).state.notifications = [] :=
  ⟨by decide, by decide, by decide, by decide, by decide⟩

/-- Claim C3 (evaluation at the failing input): retrying the failed
settlement `settlementFailedRow` (status "failed", retry_count 0) persists
the bookkeeping — retry_count 1, status "processing", failure_reason
cleared — and then delegates to `process_settlement`, which dies with the
`AttributeError` at `order.vendor` before even reaching the step-3 conflict
guard: the retry never gets near the gateway (no transfer call although the
stub would accept) and the row is left stuck in "processing". -/
theorem retry_crashes_in_delegated_settlement :
    retry_failed_settlement gwUp 9 settlementFailedRow stRetry
      = ⟨⟨orderPrecomputed,
          [{ settlementFailedRow with
              retry_count := 1
              status := "processing"
              failure_reason := none }], [], 2⟩,
         [], .error "'Order' object has no attribute 'vendor'"⟩ := by
  decide

/-- Claim C4 (evaluation at the failing input): `calculate_commission` on
the ₹999.99 order of the claimed scenario computes nothing at all — the
first operation multiplies the `Decimal` column `total_price` by the float
literal `2.0`, which raises `TypeError` in Python — so neither the claimed
rounded pair (20.00, 979.99) nor any other split is ever produced or
persisted (and the source contains no `round` call in any case). -/
theorem calculate_commission_raises_typeerror :
    calculate_commission order99999
      = .error "unsupported operand type(s) for *: 'decimal.Decimal' and 'float'" ∧
    ∀ o : Order, calculate_commission order99999 ≠ .ok o :=
  ⟨by decide, fun o h => by
    have h1 : calculate_commission order99999
        = .error "unsupported operand type(s) for *: 'decimal.Decimal' and 'float'" := by
      decide
    rw [h1] at h
    exact Except.noConfusion h⟩

/-- Claim C5: the retry bound.  A retry on a settlement that is not "failed"
fails fast with "Can only retry failed settlements"; a retry on a failed
settlement with retry_count ≥ 3 fails fast with the "maximum retry
attempts" error — in both cases the ledger is returned untouched and no
gateway call is fired; and the invariant `retry_count ≤ 3` on every
settlement row is preserved by `retry_failed_settlement` (the increment only
happens below the bound, and the delegated `process_settlement` never raises
any counter). -/
theorem retry_bound_enforced (gw : TransferReq → Except String String)
    (now : Nat) (s : PaymentSettlement) (st : SState) :
    (s.status ≠ "failed" →
      retry_failed_settlement gw now s st
        = ⟨st, [], .error "Can only retry failed settlements"⟩) ∧
    (s.status = "failed" → 3 ≤ s.retry_count →
      retry_failed_settlement gw now s st
        = ⟨st, [],
           .error "Maximum retry attempts (3) reached. Manual intervention required."⟩) ∧
    ((∀ t ∈ st.settlements, t.retry_count ≤ 3) → s.retry_count ≤ 3 →
      ∀ t ∈ (retry_failed_settlement gw now s st).state.settlements,
        t.retry_count ≤ 3) := by
  refine ⟨?_, ?_, ?_⟩
  · intro h1
    unfold retry_failed_settlement
    rw [if_pos h1]
  · intro h1 h2
    unfold retry_failed_settlement
    rw [if_neg (by simp [h1]), if_pos h2]
  · intro hall hs
    unfold retry_failed_settlement
    by_cases h1 : s.status ≠ "failed"
    · rw [if_pos h1]
      exact hall
    · rw [if_neg h1]
      by_cases h2 : 3 ≤ s.retry_count
      · rw [if_pos h2]
        exact hall
      · rw [if_neg h2]
        dsimp only
        rw [process_settlement_state_eq]
        intro t ht
        rcases mem_saveSettlement ht with h' | h'
        · subst h'
          show s.retry_count + 1 ≤ 3
          omega
        · exact hall t h'

/-- Witness for C5 at concrete rows: the retry-exhausted settlement is
refused with the maximum-retry error and the bound still holds afterwards;
a "completed" settlement is refused with the only-failed error. -/
theorem retry_bound_enforced_witness :
    retry_failed_settlement gwUp 0 settlementMaxRetries stMaxRetries
      = ⟨stMaxRetries, [],
         .error "Maximum retry attempts (3) reached. Manual intervention required."⟩ ∧
    (∀ t ∈ (retry_failed_settlement gwUp 0 settlementMaxRetries
        stMaxRetries).state.settlements, t.retry_count ≤ 3) ∧
    retry_failed_settlement gwUp 0
        { settlementMaxRetries with status := "completed" } stMaxRetries
      = ⟨stMaxRetries, [], .error "Can only retry failed settlements"⟩ :=
  ⟨(retry_bound_enforced gwUp 0 settlementMaxRetries stMaxRetries).2.1
      rfl (by decide),
   (retry_bound_enforced gwUp 0 settlementMaxRetries stMaxRetries).2.2
      (by decide) (by decide),
   (retry_bound_enforced gwUp 0
      { settlementMaxRetries with status := "completed" } stMaxRetries).1
      (by decide)⟩

/-- Claim C6: whenever a webhook secret is configured (non-empty) and the
`X-Razorpay-Signature` header differs from the HMAC-SHA256 of the raw body
under that secret (including an absent header), the handler answers
`400 Invalid signature` and the database is returned untouched — no Order or
cart-item row is mutated, whatever the payload says.  (There is no
settlement table in the webhook's reach at all.) -/
theorem webhook_invalid_signature_rejected
    (hmacSha256 : String → String → String)
    (parseJson : String → Option WebhookPayload)
    (secret : String) (sig : Option String) (body : String) (db : WebDB)
    (hsecret : secret ≠ "")
    (hsig : sig ≠ some (hmacSha256 secret body)) :
    razorpay_webhook hmacSha256 parseJson secret sig body db
      = (db, .errorResp 400 "Invalid signature") := by
  unfold razorpay_webhook
  rw [if_pos hsecret, if_pos hsig]

/-- Witness for C6 at a concrete request: secret `"sek"`, header `"bad"`,
an arbitrary parse function and an empty database. -/
theorem webhook_invalid_signature_rejected_witness :
    razorpay_webhook (fun s b => s ++ "|" ++ b) (fun _ => none)
        "sek" (some "bad") "body" ⟨[], []⟩
      = (⟨[], []⟩, .errorResp 400 "Invalid signature") :=
  webhook_invalid_signature_rejected (fun s b => s ++ "|" ++ b) (fun _ => none)
    "sek" (some "bad") "body" ⟨[], []⟩ (by decide) (by decide)

/-- Claim C7 (evaluation at the failing input): a signature-valid
`payment.captured` delivery for an existing matching order does not move the
order to "Processing" at all — the lookup
`Order.objects.filter(razorpay_order_id=...)` names a column that
`orders/models.py` `Order` does not have, the resulting `FieldError` escapes
to the generic handler, and the response is a 500 error with the database
untouched (the order still "Pending", the cart item still active); a second
identical delivery repeats the same outcome. -/
theorem webhook_captured_lookup_raises_fielderror :
    razorpay_webhook hmacConcat parseCaptured "helmstone123"
        (some (hmacConcat "helmstone123" "rawbody")) "rawbody" dbAwaitingCapture
      = (dbAwaitingCapture,
         .errorResp 500 "Cannot resolve keyword 'razorpay_order_id' into field") ∧
    orderAwaitingCapture.status = "Pending" ∧
    razorpay_webhook hmacConcat parseCaptured "helmstone123"
        (some (hmacConcat "helmstone123" "rawbody")) "rawbody"
        (razorpay_webhook hmacConcat parseCaptured "helmstone123"
          (some (hmacConcat "helmstone123" "rawbody")) "rawbody"
          dbAwaitingCapture).1
      = (dbAwaitingCapture,
         .errorResp 500 "Cannot resolve keyword 'razorpay_order_id' into field") := by
  refine ⟨by decide, by decide, by decide⟩

/-- Claim C8 (evaluation at the failing input): the signature-valid
`payment.captured` payload of the repository's own webhook test (whose
referenced order does not exist in the database) is answered with a
500 error — `Cannot resolve keyword 'razorpay_order_id' into field` — and
not with the success acknowledgment the claim (and the test script, which
expects HTTP 200) demands. -/
theorem webhook_valid_payload_returns_500_not_success :
    razorpay_webhook hmacConcat parseCaptured "helmstone123"
        (some (hmacConcat "helmstone123" "testbody")) "testbody" ⟨[], []⟩
      = (⟨[], []⟩,
         .errorResp 500 "Cannot resolve keyword 'razorpay_order_id' into field") ∧
    (razorpay_webhook hmacConcat parseCaptured "helmstone123"
        (some (hmacConcat "helmstone123" "testbody")) "testbody" ⟨[], []⟩).2
      ≠ .success (some "payment.captured") := by
  refine ⟨by decide, by decide⟩

/-- Claim C9 (counterexample): cancelling the "Processing" order
`orderProcessing` succeeds, yet the stock of its line item's product is left
at 5 — the claimed restoration to 5 + 2 = 7 does not happen.  (The
cancellation branch of `OrderViewSet.update` contains no stock write.) -/
theorem cancel_processing_does_not_restore_stock :
    (orderViewSet_update (some "Cancelled") orderProcessing
        [detailProcessing] [productFive] false).resp
      = .okMsg "Order cancelled successfully." ∧
    (orderViewSet_update (some "Cancelled") orderProcessing
        [detailProcessing] [productFive] false).products = [⟨5, 5⟩] ∧
    (orderViewSet_update (some "Cancelled") orderProcessing
        [detailProcessing] [productFive] false).products ≠ [⟨5, 5 + 2⟩] := by
  refine ⟨by decide, by decide, by decide⟩

/-- Claim C9 (amended): a cancellation request for a "Shipped" or
"Delivered" order is rejected with an error and mutates nothing; cancelling
a "Processing" order succeeds, sets the status to "Cancelled" (also
deactivating the order), triggers the refund-request email and a
cancellation notification, and leaves every product's stock unchanged —
stock is only decremented on the transition to "Shipped", so nothing was
deducted yet for a cancellable order and no restoration takes place. -/
theorem cancel_rules_hold_without_restock (o : Order)
    (details : List OrderDetail) (products : List Product) (perm : Bool)
    (hactive : o.is_active = true) :
    (o.status = "Shipped" ∨ o.status = "Delivered" →
      orderViewSet_update (some "Cancelled") o details products perm
        = ⟨o, products, [], false,
           .err 400 "Order cannot be cancelled at this stage"⟩) ∧
    (o.status = "Processing" →
      orderViewSet_update (some "Cancelled") o details products perm
        = ⟨{ o with status := "Cancelled", is_active := false }, products,
           [⟨some o.userId, "order_cancelation", "order_cancelled"⟩], true,
           .okMsg "Order cancelled successfully."⟩) := by
  constructor
  · intro hs
    unfold orderViewSet_update
    rw [if_neg (by simp [hactive]), if_pos rfl, if_pos hs]
  · intro hs
    unfold orderViewSet_update
    rw [if_neg (by simp [hactive]), if_pos rfl, if_neg (by simp [hs])]
    simp [hs]

/-- Witness for C9 (amended) at concrete orders: the shipped twin of
`orderProcessing` is rejected; `orderProcessing` itself is cancelled with
the refund email sent and the stock untouched. -/
theorem cancel_rules_hold_without_restock_witness :
    (orderViewSet_update (some "Cancelled")
        { orderProcessing with status := "Shipped" }
        [detailProcessing] [productFive] false
      = ⟨{ orderProcessing with status := "Shipped" }, [productFive], [],
         false, .err 400 "Order cannot be cancelled at this stage"⟩) ∧
    (orderViewSet_update (some "Cancelled") orderProcessing
        [detailProcessing] [productFive] false
      = ⟨{ orderProcessing with status := "Cancelled", is_active := false },
         [productFive],
         [⟨some orderProcessing.userId, "order_cancelation", "order_cancelled"⟩],
         true, .okMsg "Order cancelled successfully."⟩) :=
  ⟨(cancel_rules_hold_without_restock
      { orderProcessing with status := "Shipped" }
      [detailProcessing] [productFive] false (by decide)).1 (Or.inl rfl),
   (cancel_rules_hold_without_restock orderProcessing
      [detailProcessing] [productFive] false (by decide)).2 rfl⟩

/-- Claim C10: when the configured webhook secret is unset/empty (Python's
`if webhook_secret:` is falsy), the handler performs no signature check at
all — for the same body, any two signature headers produce the identical
response and identical database, so unsigned payloads are processed as
genuine. -/
theorem webhook_empty_secret_skips_verification
    (hmacSha256 : String → String → String)
    (parseJson : String → Option WebhookPayload)
    (secret : String) (sig1 sig2 : Option String) (body : String) (db : WebDB)
    (hsecret : secret = "") :
    razorpay_webhook hmacSha256 parseJson secret sig1 body db
      = razorpay_webhook hmacSha256 parseJson secret sig2 body db := by
  subst hsecret
  simp [razorpay_webhook]

/-- Witness for C10: with an empty secret, a garbage signature and a missing
signature produce the same outcome. -/
theorem webhook_empty_secret_skips_verification_witness :
    razorpay_webhook (fun s b => s ++ "|" ++ b) (fun _ => none)
        "" (some "garbage") "body" ⟨[], []⟩
      = razorpay_webhook (fun s b => s ++ "|" ++ b) (fun _ => none)
        "" none "body" ⟨[], []⟩ :=
  webhook_empty_secret_skips_verification (fun s b => s ++ "|" ++ b)
    (fun _ => none) "" (some "garbage") none "body" ⟨[], []⟩ rfl
